import Mathlib

/-!
Verification of `crates/generate-raw/src/lib.rs`, the witx-to-raw-Rust
rendering engine.  The witx document model and render functions are embedded
shallowly: every `Render` impl becomes a Lean function producing the text it
appends to the output buffer (`push_str` sequences become string
concatenation in the same order), and fallible rendering (`panic!`,
`assert!`, `unreachable!`) becomes `Option`, with `none` for an abort.
-/

namespace WasiRaw

/-- Builtin primitive types of the IDL (the witx `BuiltinType` enum, as
consumed by `BuiltinType::render` in the source). -/
inductive BuiltinType where
  | String
  | U8
  | U16
  | U32
  | U64
  | S8
  | S16
  | S32
  | S64
  | F32
  | F64
deriving DecidableEq

/-- Integer representation widths (the witx `IntRepr` enum). -/
inductive IntRepr where
  | U8
  | U16
  | U32
  | U64
deriving DecidableEq

/-- Modelled from the spec: the witx `DatatypePassedBy` classification
(external to src/).  The source only matches on the three constructors and
ignores `Value`'s payload, so the payload is omitted here. -/
inductive DatatypePassedBy where
  | Value
  | Pointer
  | PointerLengthPair
deriving DecidableEq

/-- Enum datatype: name, representation width, ordered variant names. -/
structure EnumDatatype where
  name : String
  repr : IntRepr
  variants : List String

/-- Flags datatype: name, representation width, ordered flag names. -/
structure FlagsDatatype where
  name : String
  repr : IntRepr
  flags : List String

/-- Handle datatype: an opaque named resource type. -/
structure HandleDatatype where
  name : String

mutual

/-- A type reference (the witx `DatatypeIdent` enum).  `Ident` embeds the
referenced `Datatype` directly, as the witx object graph does. -/
inductive DatatypeIdent where
  | Builtin : BuiltinType → DatatypeIdent
  | Array : DatatypeIdent → DatatypeIdent
  | Pointer : DatatypeIdent → DatatypeIdent
  | ConstPointer : DatatypeIdent → DatatypeIdent
  | Ident : Datatype → DatatypeIdent

/-- A named datatype: name plus variant. -/
inductive Datatype where
  | mk : String → DatatypeVariant → Datatype

/-- The six datatype kinds. -/
inductive DatatypeVariant where
  | Alias : AliasDatatype → DatatypeVariant
  | Enum : EnumDatatype → DatatypeVariant
  | Flags : FlagsDatatype → DatatypeVariant
  | Struct : StructDatatype → DatatypeVariant
  | Union : UnionDatatype → DatatypeVariant
  | Handle : HandleDatatype → DatatypeVariant

/-- Alias datatype: name and target type. -/
inductive AliasDatatype where
  | mk : String → DatatypeIdent → AliasDatatype

/-- Struct member: name and type. -/
inductive StructMember where
  | mk : String → DatatypeIdent → StructMember

/-- Struct datatype: name and ordered members. -/
inductive StructDatatype where
  | mk : String → List StructMember → StructDatatype

/-- Union variant: name and type. -/
inductive UnionVariant where
  | mk : String → DatatypeIdent → UnionVariant

/-- Union datatype: name and ordered variants. -/
inductive UnionDatatype where
  | mk : String → List UnionVariant → UnionDatatype

end

def Datatype.name : Datatype → String
  | Datatype.mk n _ => n

def Datatype.variant : Datatype → DatatypeVariant
  | Datatype.mk _ v => v

def AliasDatatype.name : AliasDatatype → String
  | AliasDatatype.mk n _ => n

def AliasDatatype.to : AliasDatatype → DatatypeIdent
  | AliasDatatype.mk _ t => t

def StructMember.name : StructMember → String
  | StructMember.mk n _ => n

def StructMember.type_ : StructMember → DatatypeIdent
  | StructMember.mk _ t => t

def StructDatatype.name : StructDatatype → String
  | StructDatatype.mk n _ => n

def StructDatatype.members : StructDatatype → List StructMember
  | StructDatatype.mk _ ms => ms

def UnionVariant.name : UnionVariant → String
  | UnionVariant.mk n _ => n

def UnionVariant.type_ : UnionVariant → DatatypeIdent
  | UnionVariant.mk _ t => t

def UnionDatatype.name : UnionDatatype → String
  | UnionDatatype.mk n _ => n

def UnionDatatype.variants : UnionDatatype → List UnionVariant
  | UnionDatatype.mk _ vs => vs

/-- The alias chase (source `fn resolve`, lib.rs lines 314-321): follow
`Ident → Alias.target` links until a non-`Ident` kind or a non-alias
datatype is reached.  Plain recursion, exactly as in the source. -/
def resolve : DatatypeIdent → DatatypeIdent
  | DatatypeIdent.Ident (Datatype.mk _ (DatatypeVariant.Alias (AliasDatatype.mk _ tgt))) =>
    resolve tgt
  | ty => ty

/-- Modelled from the spec: `DatatypeIdent::passed_by` lives in the external
witx crate, not under src/.  Spec section 3: "builtin numeric/handle ⇒
by-value; string or array ⇒ pointer+length-pair; everything else needing
indirection ⇒ single-pointer"; aliases classify as their ultimate target
(the Alias Resolver is "used wherever a rendering decision needs to know the
real underlying shape of a named type").  Raw pointers are scalars and need
no indirection, so they pass by value. -/
def passedBy : DatatypeIdent → DatatypePassedBy
  | DatatypeIdent.Builtin BuiltinType.String => DatatypePassedBy.PointerLengthPair
  | DatatypeIdent.Builtin _ => DatatypePassedBy.Value
  | DatatypeIdent.Array _ => DatatypePassedBy.PointerLengthPair
  | DatatypeIdent.Pointer _ => DatatypePassedBy.Value
  | DatatypeIdent.ConstPointer _ => DatatypePassedBy.Value
  | DatatypeIdent.Ident (Datatype.mk _ (DatatypeVariant.Alias (AliasDatatype.mk _ tgt))) =>
    passedBy tgt
  | DatatypeIdent.Ident (Datatype.mk _ (DatatypeVariant.Struct _)) => DatatypePassedBy.Pointer
  | DatatypeIdent.Ident (Datatype.mk _ (DatatypeVariant.Union _)) => DatatypePassedBy.Pointer
  | DatatypeIdent.Ident (Datatype.mk _ _) => DatatypePassedBy.Value

/-- `Id::render` (lib.rs lines 304-312): escape the two reserved words. -/
def idRender (s : String) : String :=
  if s = "in" then "r#in" else if s = "type" then "r#type" else s

/-- `BuiltinType::render` (lib.rs lines 193-209). -/
def builtinRender : BuiltinType → String
  | BuiltinType.String => "str"
  | BuiltinType.U8 => "u8"
  | BuiltinType.U16 => "u16"
  | BuiltinType.U32 => "u32"
  | BuiltinType.U64 => "u64"
  | BuiltinType.S8 => "i8"
  | BuiltinType.S16 => "i16"
  | BuiltinType.S32 => "i32"
  | BuiltinType.S64 => "i64"
  | BuiltinType.F32 => "f32"
  | BuiltinType.F64 => "f64"

/-- `IntRepr::render` (lib.rs lines 136-145). -/
def intReprRender : IntRepr → String
  | IntRepr.U8 => "u8"
  | IntRepr.U16 => "u16"
  | IntRepr.U32 => "u32"
  | IntRepr.U64 => "u64"

/-- `DatatypeIdent::render` (lib.rs lines 165-185).  The `Array` arm is
`unreachable!()` in the source, i.e. an abort, modelled as `none`. -/
def DatatypeIdent.render : DatatypeIdent → Option String
  | DatatypeIdent.Builtin t => some (builtinRender t)
  | DatatypeIdent.Array _ => none
  | DatatypeIdent.Pointer t => (DatatypeIdent.render t).map (fun s => "*mut " ++ s)
  | DatatypeIdent.ConstPointer t => (DatatypeIdent.render t).map (fun s => "*const " ++ s)
  | DatatypeIdent.Ident (Datatype.mk n _) => some ("__wasi_" ++ n ++ "_t")

/-- `HandleDatatype::render` (lib.rs lines 187-191). -/
def HandleDatatype.render (h : HandleDatatype) : String :=
  "pub type __wasi_" ++ h.name ++ "_t = u32;"

/-- `AliasDatatype::render` (lib.rs lines 147-163): aliases to
pointer+length-pair types produce no output; the alias named "size" maps to
`usize`; all others map to the rendered target. -/
def AliasDatatype.render (a : AliasDatatype) : Option String :=
  if passedBy a.to = DatatypePassedBy.PointerLengthPair then some "" else
  (if a.name = "size" then some "usize" else DatatypeIdent.render a.to).map
    (fun body => "pub type __wasi_" ++ a.name ++ "_t = " ++ body ++ ";")

/-- ASCII upper-casing of one character. -/
def asciiUpper (c : Char) : Char :=
  if 97 ≤ c.toNat ∧ c.toNat ≤ 122 then Char.ofNat (c.toNat - 32) else c

/-- Modelled from the spec: `heck::ShoutySnakeCase` is an external crate;
per the spec, constant names are the datatype/variant names "upper-cased per
convention".  witx identifiers are lower-case snake case, for which shouty
snake case is plain ASCII upper-casing. -/
def shoutySnake (s : String) : String :=
  String.mk (s.data.map asciiUpper)

/-- Lower-case hexadecimal rendering (Rust's `0x{:x}` body). -/
def hexStr (n : Nat) : String :=
  String.mk (Nat.toDigits 16 n)

/-- One flags constant line (the `format!` at lib.rs lines 108-114), for
flag `vname` at position `i`: its value is `1 << i`. -/
def flagConstLine (tyname vname : String) (i : Nat) : String :=
  "pub const __WASI_" ++ shoutySnake tyname ++ "_" ++ shoutySnake vname ++
    ": __wasi_" ++ tyname ++ "_t = 0x" ++ hexStr (1 <<< i) ++ ";"

/-- The flags constant loop (lib.rs lines 107-115).  The source computes
`1 << i` at 32-bit width (`1` defaults to `i32`); a shift amount of 32 or
more overflows and aborts, modelled as `none`. -/
def flagConsts (tyname : String) : Nat → List String → Option String
  | _, [] => some ""
  | i, v :: vs =>
    if i < 32 then
      (flagConsts tyname (i + 1) vs).map (fun rest => flagConstLine tyname v i ++ rest)
    else none

/-- `FlagsDatatype::render` (lib.rs lines 102-117): a type alias line at the
chosen width, then one constant per flag. -/
def FlagsDatatype.render (f : FlagsDatatype) : Option String :=
  (flagConsts f.name 0 f.flags).map
    (fun consts =>
      "pub type __wasi_" ++ f.name ++ "_t = " ++ intReprRender f.repr ++ ";\n" ++ consts)

/-- One enum constant line (the `format!` at lib.rs lines 125-131): the
variant's value is its ordinal `i`. -/
def enumConstLine (tyname vname : String) (i : Nat) : String :=
  "pub const __WASI_" ++ shoutySnake tyname ++ "_" ++ shoutySnake vname ++
    ": __wasi_" ++ tyname ++ "_t = " ++ Nat.repr i ++ ";"

/-- The enum constant loop (lib.rs lines 124-132). -/
def enumConsts (tyname : String) : Nat → List String → String
  | _, [] => ""
  | i, v :: vs => enumConstLine tyname v i ++ enumConsts tyname (i + 1) vs

/-- `EnumDatatype::render` (lib.rs lines 119-134). -/
def EnumDatatype.render (e : EnumDatatype) : String :=
  "pub type __wasi_" ++ e.name ++ "_t = " ++ intReprRender e.repr ++ ";\n" ++
    enumConsts e.name 0 e.variants

/-- List concatenation of rendered fragments, in order. -/
def concatAll : List String → String
  | [] => ""
  | s :: rest => s ++ concatAll rest

/-- `StructDatatype::render` (lib.rs lines 86-100). -/
def StructDatatype.render (s : StructDatatype) : Option String :=
  (s.members.mapM (fun m =>
      (DatatypeIdent.render m.type_).map
        (fun t => "pub " ++ idRender m.name ++ ": " ++ t ++ ",\n"))).map
    (fun fields =>
      "#[repr(C)]\n#[derive(Copy, Clone)]\npub struct __wasi_" ++ s.name ++ "_t \x7b\n" ++
        concatAll fields ++ "\x7d")

/-- `UnionDatatype::render` (lib.rs lines 70-84). -/
def UnionDatatype.render (u : UnionDatatype) : Option String :=
  (u.variants.mapM (fun v =>
      (DatatypeIdent.render v.type_).map
        (fun t => "pub " ++ idRender v.name ++ ": " ++ t ++ ",\n"))).map
    (fun fields =>
      "#[repr(C)]\n#[derive(Copy, Clone)]\npub union __wasi_" ++ u.name ++ "_t \x7b\n" ++
        concatAll fields ++ "\x7d")

/-- `Datatype::render` (lib.rs lines 57-68): dispatch on the variant. -/
def Datatype.render (d : Datatype) : Option String :=
  match d.variant with
  | DatatypeVariant.Alias a => a.render
  | DatatypeVariant.Enum e => some e.render
  | DatatypeVariant.Flags f => f.render
  | DatatypeVariant.Struct s => s.render
  | DatatypeVariant.Union u => u.render
  | DatatypeVariant.Handle h => some h.render

/-- Modelled from the spec: the witx `InterfaceFuncParamPosition` tag
(external to src/) "distinguishing 'is a parameter' from 'is a result
slot'"; the source matches `Param(_)`, so each constructor carries its
index. -/
inductive InterfaceFuncParamPosition where
  | Param : Nat → InterfaceFuncParamPosition
  | Result : Nat → InterfaceFuncParamPosition
deriving DecidableEq

/-- A function parameter or result slot: name, type, position. -/
structure InterfaceFuncParam where
  name : String
  type_ : DatatypeIdent
  position : InterfaceFuncParamPosition

/-- The element-type match inside the pointer+length-pair arm of
`InterfaceFuncParam::render` (lib.rs lines 289-293): applied to the resolved
type, arrays render their element type, the string builtin renders `u8`, and
every other shape is a `panic!` (abort), modelled as `none`. -/
def plpElemType : DatatypeIdent → Option String
  | DatatypeIdent.Array x => DatatypeIdent.render x
  | DatatypeIdent.Builtin BuiltinType.String => some "u8"
  | _ => none

/-- `InterfaceFuncParam::render` (lib.rs lines 257-302).  The
pointer+length-pair arm first `assert!`s that the slot is a parameter
(abort, i.e. `none`, for a result slot). -/
def InterfaceFuncParam.render (p : InterfaceFuncParam) : Option String :=
  let is_param : Bool :=
    match p.position with
    | InterfaceFuncParamPosition.Param _ => true
    | _ => false
  match passedBy p.type_ with
  | DatatypePassedBy.Value =>
    (DatatypeIdent.render p.type_).map
      (fun t => (if is_param then idRender p.name ++ ": " else "") ++ t)
  | DatatypePassedBy.Pointer =>
    (DatatypeIdent.render p.type_).map
      (fun t => (if is_param then idRender p.name ++ ": " else "") ++ "*mut " ++ t)
  | DatatypePassedBy.PointerLengthPair =>
    if is_param then
      (plpElemType (resolve p.type_)).map
        (fun e => p.name ++ "_ptr: *const " ++ e ++ ", " ++ p.name ++ "_len: usize")
    else none

/-- A function: name, ordered parameters, ordered results. -/
structure InterfaceFunc where
  name : String
  params : List InterfaceFuncParam
  results : List InterfaceFuncParam

/-- `InterfaceFunc::render` (lib.rs lines 225-255): link_name header, the
declared parameters (each followed by a comma), the results after the first
as trailing `name: *mut Type` out-parameters, then the first result as the
return type, or ` -> !` for a zero-result function named `proc_exit`. -/
def InterfaceFunc.render (f : InterfaceFunc) : Option String :=
  (f.params.mapM (fun p => (InterfaceFuncParam.render p).map (fun s => s ++ ","))).bind
    (fun ps =>
      ((f.results.drop 1).mapM (fun r =>
          (DatatypeIdent.render r.type_).map
            (fun t => idRender r.name ++ ": *mut " ++ t ++ ","))).bind
        (fun rs =>
          (match f.results.get? 0 with
            | some r => (InterfaceFuncParam.render r).map (fun t => " -> " ++ t)
            | none => some (if f.name = "proc_exit" then " -> !" else "")).bind
            (fun ret =>
              some ("#[link_name = \"" ++ f.name ++ "\"]\npub fn __wasi_" ++ f.name ++
                "(" ++ concatAll ps ++ concatAll rs ++ ")" ++ ret ++ ";"))))

/-- A module: name and ordered functions. -/
structure Module where
  name : String
  funcs : List InterfaceFunc

/-- `Module::render` (lib.rs lines 211-223). -/
def Module.render (m : Module) : Option String :=
  (m.funcs.mapM (fun f => (InterfaceFunc.render f).map (fun s => s ++ "\n"))).map
    (fun fs =>
      "#[link(wasm_import_module =\"" ++ m.name ++ "\")]\nextern \"C\" \x7b\n" ++
        concatAll fs ++ "\x7d")

/-- A document: ordered datatypes and ordered modules. -/
structure Document where
  datatypes : List Datatype
  modules : List Module

/-- The fixed auto-generated header (lib.rs lines 11-20). -/
def headerStr : String :=
  "// This file is automatically generated, DO NOT EDIT\n//\n// To regenerate this file run the `crates/generate-raw` command\n\n#![allow(non_camel_case_types)]\n\n"

/-- The text-accumulation portion of `generate` (lib.rs lines 10-28): the
header, then each datatype's rendering followed by a newline, then each
module's rendering followed by a newline, in declaration order.  (Loading
the witx file and piping through `rustfmt` are external collaborators and
out of scope.) -/
def generateRaw (doc : Document) : Option String :=
  (doc.datatypes.foldlM
      (fun acc ty => (Datatype.render ty).map (fun s => acc ++ s ++ "\n")) headerStr).bind
    (fun raw1 =>
      doc.modules.foldlM
        (fun acc m => (Module.render m).map (fun s => acc ++ s ++ "\n")) raw1)

end WasiRaw

namespace WasiRaw

/-- Whether a type reference is an `Ident` pointing at an alias datatype,
i.e. a link the alias chase still has to follow. -/
def isAliasIdent : DatatypeIdent → Bool
  | DatatypeIdent.Ident (Datatype.mk _ (DatatypeVariant.Alias _)) => true
  | _ => false

theorem resolve_not_alias : ∀ ty : DatatypeIdent, isAliasIdent (resolve ty) = false
  | DatatypeIdent.Ident (Datatype.mk _ (DatatypeVariant.Alias (AliasDatatype.mk _ tgt))) => by
    rw [resolve]
    exact resolve_not_alias tgt
  | DatatypeIdent.Builtin _ => rfl
  | DatatypeIdent.Array _ => rfl
  | DatatypeIdent.Pointer _ => rfl
  | DatatypeIdent.ConstPointer _ => rfl
  | DatatypeIdent.Ident (Datatype.mk _ (DatatypeVariant.Enum _)) => rfl
  | DatatypeIdent.Ident (Datatype.mk _ (DatatypeVariant.Flags _)) => rfl
  | DatatypeIdent.Ident (Datatype.mk _ (DatatypeVariant.Struct _)) => rfl
  | DatatypeIdent.Ident (Datatype.mk _ (DatatypeVariant.Union _)) => rfl
  | DatatypeIdent.Ident (Datatype.mk _ (DatatypeVariant.Handle _)) => rfl

theorem resolve_fixes : ∀ ty : DatatypeIdent, isAliasIdent ty = false → resolve ty = ty
  | DatatypeIdent.Builtin _, _ => rfl
  | DatatypeIdent.Array _, _ => rfl
  | DatatypeIdent.Pointer _, _ => rfl
  | DatatypeIdent.ConstPointer _, _ => rfl
  | DatatypeIdent.Ident (Datatype.mk _ (DatatypeVariant.Enum _)), _ => rfl
  | DatatypeIdent.Ident (Datatype.mk _ (DatatypeVariant.Flags _)), _ => rfl
  | DatatypeIdent.Ident (Datatype.mk _ (DatatypeVariant.Struct _)), _ => rfl
  | DatatypeIdent.Ident (Datatype.mk _ (DatatypeVariant.Union _)), _ => rfl
  | DatatypeIdent.Ident (Datatype.mk _ (DatatypeVariant.Handle _)), _ => rfl
  | DatatypeIdent.Ident (Datatype.mk _ (DatatypeVariant.Alias _)), h => by
    simp [isAliasIdent] at h

/-- The number of alias links `resolve` follows before stopping: its
recursion structure, counting the recursive calls. -/
def chaseLength : DatatypeIdent → Nat
  | DatatypeIdent.Ident (Datatype.mk _ (DatatypeVariant.Alias (AliasDatatype.mk _ tgt))) =>
    chaseLength tgt + 1
  | _ => 0

/-- An alias chain of the given depth ending at the `u32` builtin. -/
def mkChain : Nat → DatatypeIdent
  | 0 => DatatypeIdent.Builtin BuiltinType.U32
  | n + 1 =>
    DatatypeIdent.Ident (Datatype.mk "a" (DatatypeVariant.Alias (AliasDatatype.mk "a" (mkChain n))))

theorem chaseLength_mkChain : ∀ n : Nat, chaseLength (mkChain n) = n
  | 0 => rfl
  | n + 1 => by
    rw [mkChain, chaseLength, chaseLength_mkChain n]

theorem resolve_mkChain : ∀ n : Nat, resolve (mkChain n) = DatatypeIdent.Builtin BuiltinType.U32
  | 0 => rfl
  | n + 1 => by
    rw [mkChain, resolve]
    exact resolve_mkChain n

end WasiRaw

namespace WasiRaw

/-- Claim C5 (amended): the Alias Resolver `resolve` returns the ultimate
non-alias `DatatypeIdent` reached by following `Ident → Alias.target` links
(it never returns an alias link, it fixes every non-alias input, and on an
alias link it recurses on the target), and it terminates on every input
because the document model is finite and acyclic by construction — not
because of any cycle guard. -/
theorem C5_resolve_chases (ty : DatatypeIdent) :
    isAliasIdent (resolve ty) = false ∧
    (isAliasIdent ty = false → resolve ty = ty) ∧
    (∀ (n : String) (a : AliasDatatype),
      ty = DatatypeIdent.Ident (Datatype.mk n (DatatypeVariant.Alias a)) →
      resolve ty = resolve a.to) := by
  refine ⟨resolve_not_alias ty, resolve_fixes ty, ?_⟩
  rintro n ⟨m, tgt⟩ rfl
  rw [resolve]
  rfl

theorem C5_witness :
    isAliasIdent (resolve (DatatypeIdent.Builtin BuiltinType.U8)) = false ∧
    resolve (DatatypeIdent.Builtin BuiltinType.U8) = DatatypeIdent.Builtin BuiltinType.U8 ∧
    resolve (DatatypeIdent.Ident (Datatype.mk "filesize"
        (DatatypeVariant.Alias (AliasDatatype.mk "filesize" (DatatypeIdent.Builtin BuiltinType.U64))))) =
      resolve (DatatypeIdent.Builtin BuiltinType.U64) :=
  ⟨(C5_resolve_chases _).1, (C5_resolve_chases _).2.1 rfl,
    (C5_resolve_chases _).2.2 "filesize" (AliasDatatype.mk "filesize" (DatatypeIdent.Builtin BuiltinType.U64)) rfl⟩

/-- Claim C5 counterexample: `resolve` applies no explicit cycle guard /
maximum chain-length bound.  It fully chases alias chains of every depth
(first conjunct), and the number of links it follows is unbounded (second
conjunct), so no maximum chain length is ever enforced. -/
theorem C5_counterexample :
    (∀ n : Nat, resolve (mkChain n) = DatatypeIdent.Builtin BuiltinType.U32) ∧
    ¬ ∃ B : Nat, ∀ ty : DatatypeIdent, chaseLength ty ≤ B := by
  refine ⟨resolve_mkChain, ?_⟩
  rintro ⟨B, hB⟩
  have h := hB (mkChain (B + 1))
  rw [chaseLength_mkChain] at h
  omega

end WasiRaw

namespace WasiRaw

/-- Claim C1: a function parameter whose type passes as a
pointer+length-pair renders as exactly the two successive ABI parameters
`name_ptr: *const ElementType` then `name_len: usize` (the original name
appears only with the `_ptr`/`_len` suffixes), where the element type is
`u8` when the type resolves to the string builtin and the rendered declared
element type when it resolves to an array. -/
theorem C1_plp_param_expansion (p : InterfaceFuncParam) (i : Nat)
    (hpos : p.position = InterfaceFuncParamPosition.Param i)
    (hplp : passedBy p.type_ = DatatypePassedBy.PointerLengthPair) :
    (resolve p.type_ = DatatypeIdent.Builtin BuiltinType.String →
      InterfaceFuncParam.render p =
        some (p.name ++ "_ptr: *const " ++ "u8" ++ ", " ++ p.name ++ "_len: usize")) ∧
    (∀ (e : DatatypeIdent) (t : String),
      resolve p.type_ = DatatypeIdent.Array e →
      DatatypeIdent.render e = some t →
      InterfaceFuncParam.render p =
        some (p.name ++ "_ptr: *const " ++ t ++ ", " ++ p.name ++ "_len: usize")) := by
  constructor
  · intro hres
    rw [InterfaceFuncParam.render, hpos, hplp, hres]
    rfl
  · intro e t hres hrend
    rw [InterfaceFuncParam.render, hpos, hplp, hres]
    simp [plpElemType, hrend]

theorem C1_witness :
    InterfaceFuncParam.render
        ⟨"path", DatatypeIdent.Builtin BuiltinType.String, InterfaceFuncParamPosition.Param 0⟩ =
      some "path_ptr: *const u8, path_len: usize" :=
  (C1_plp_param_expansion
      ⟨"path", DatatypeIdent.Builtin BuiltinType.String, InterfaceFuncParamPosition.Param 0⟩
      0 rfl rfl).1 rfl

/-- Claim C6: if the type of a pointer+length-pair parameter resolves, via
alias-chasing, to a shape that is neither the string builtin nor an array,
generation aborts with a fatal error: the element-type match returns `none`
for every such shape, and the pointer+length-pair rendering of a parameter
is exactly that match's result mapped into the pair text, so a `none`
propagates and no fallback text is emitted. -/
theorem C6_plp_bad_shape_aborts (x : DatatypeIdent)
    (h1 : x ≠ DatatypeIdent.Builtin BuiltinType.String)
    (h2 : ∀ e : DatatypeIdent, x ≠ DatatypeIdent.Array e) :
    plpElemType x = none ∧
    (∀ (p : InterfaceFuncParam) (i : Nat),
      p.position = InterfaceFuncParamPosition.Param i →
      passedBy p.type_ = DatatypePassedBy.PointerLengthPair →
      InterfaceFuncParam.render p =
        (plpElemType (resolve p.type_)).map
          (fun e => p.name ++ "_ptr: *const " ++ e ++ ", " ++ p.name ++ "_len: usize")) := by
  constructor
  · match x, h1, h2 with
    | DatatypeIdent.Builtin BuiltinType.String, h1, _ => exact absurd rfl h1
    | DatatypeIdent.Array e, _, h2 => exact absurd rfl (h2 e)
    | DatatypeIdent.Builtin BuiltinType.U8, _, _ => rfl
    | DatatypeIdent.Builtin BuiltinType.U16, _, _ => rfl
    | DatatypeIdent.Builtin BuiltinType.U32, _, _ => rfl
    | DatatypeIdent.Builtin BuiltinType.U64, _, _ => rfl
    | DatatypeIdent.Builtin BuiltinType.S8, _, _ => rfl
    | DatatypeIdent.Builtin BuiltinType.S16, _, _ => rfl
    | DatatypeIdent.Builtin BuiltinType.S32, _, _ => rfl
    | DatatypeIdent.Builtin BuiltinType.S64, _, _ => rfl
    | DatatypeIdent.Builtin BuiltinType.F32, _, _ => rfl
    | DatatypeIdent.Builtin BuiltinType.F64, _, _ => rfl
    | DatatypeIdent.Pointer _, _, _ => rfl
    | DatatypeIdent.ConstPointer _, _, _ => rfl
    | DatatypeIdent.Ident _, _, _ => rfl
  · intro p i hpos hplp
    rw [InterfaceFuncParam.render, hpos, hplp]
    rfl

theorem C6_witness :
    plpElemType (DatatypeIdent.Builtin BuiltinType.U8) = none ∧
    InterfaceFuncParam.render
        ⟨"buf", DatatypeIdent.Builtin BuiltinType.String, InterfaceFuncParamPosition.Param 1⟩ =
      (plpElemType (resolve (DatatypeIdent.Builtin BuiltinType.String))).map
        (fun e => "buf" ++ "_ptr: *const " ++ e ++ ", " ++ "buf" ++ "_len: usize") :=
  ⟨(C6_plp_bad_shape_aborts (DatatypeIdent.Builtin BuiltinType.U8)
      (fun h => DatatypeIdent.noConfusion h (fun hb => BuiltinType.noConfusion hb))
      (fun _ h => DatatypeIdent.noConfusion h)).1,
    (C6_plp_bad_shape_aborts (DatatypeIdent.Builtin BuiltinType.U8)
      (fun h => DatatypeIdent.noConfusion h (fun hb => BuiltinType.noConfusion hb))
      (fun _ h => DatatypeIdent.noConfusion h)).2
      ⟨"buf", DatatypeIdent.Builtin BuiltinType.String, InterfaceFuncParamPosition.Param 1⟩ 1 rfl rfl⟩

end WasiRaw

namespace WasiRaw

theorem result_plp_none (p : InterfaceFuncParam) (i : Nat)
    (hpos : p.position = InterfaceFuncParamPosition.Result i)
    (hplp : passedBy p.type_ = DatatypePassedBy.PointerLengthPair) :
    InterfaceFuncParam.render p = none := by
  rw [InterfaceFuncParam.render, hpos, hplp]
  rfl

/-- Claim C10: a result slot whose type passes as a pointer+length-pair
fails the `assert!(is_param)` in `InterfaceFuncParam::render` (rendering
aborts, `none`); consequently a function whose first declared result has
pointer+length-pair convention renders to `none` — no return type is ever
emitted for it. -/
theorem C10_plp_first_result_aborts :
    (∀ (p : InterfaceFuncParam) (i : Nat),
      p.position = InterfaceFuncParamPosition.Result i →
      passedBy p.type_ = DatatypePassedBy.PointerLengthPair →
      InterfaceFuncParam.render p = none) ∧
    (∀ (f : InterfaceFunc) (r : InterfaceFuncParam) (rest : List InterfaceFuncParam) (i : Nat),
      f.results = r :: rest →
      r.position = InterfaceFuncParamPosition.Result i →
      passedBy r.type_ = DatatypePassedBy.PointerLengthPair →
      InterfaceFunc.render f = none) := by
  refine ⟨fun p i hpos hplp => result_plp_none p i hpos hplp, ?_⟩
  intro f r rest i hres hpos hplp
  have hr : InterfaceFuncParam.render r = none := result_plp_none r i hpos hplp
  rw [InterfaceFunc.render, hres]
  cases hps : f.params.mapM (fun p => (InterfaceFuncParam.render p).map (fun s => s ++ ",")) with
  | none => rfl
  | some ps =>
    show ((rest.mapM (fun q =>
        (DatatypeIdent.render q.type_).map (fun t => idRender q.name ++ ": *mut " ++ t ++ ","))).bind
      (fun rs => ((InterfaceFuncParam.render r).map (fun t => " -> " ++ t)).bind
        (fun ret => some ("#[link_name = \"" ++ f.name ++ "\"]\npub fn __wasi_" ++ f.name ++
          "(" ++ concatAll ps ++ concatAll rs ++ ")" ++ ret ++ ";")))) = none
    rw [hr]
    cases rest.mapM (fun q =>
        (DatatypeIdent.render q.type_).map (fun t => idRender q.name ++ ": *mut " ++ t ++ ",")) with
    | none => rfl
    | some rs => rfl

theorem C10_witness :
    InterfaceFuncParam.render
        ⟨"buf", DatatypeIdent.Builtin BuiltinType.String, InterfaceFuncParamPosition.Result 0⟩ =
      none ∧
    InterfaceFunc.render
        ⟨"f", [],
          [⟨"buf", DatatypeIdent.Builtin BuiltinType.String, InterfaceFuncParamPosition.Result 0⟩]⟩ =
      none :=
  ⟨C10_plp_first_result_aborts.1 _ 0 rfl rfl,
    C10_plp_first_result_aborts.2 _ _ [] 0 rfl rfl rfl⟩

/-- The fixed prefix of a rendered function declaration: the `link_name`
directive carrying the unmodified name, then the prefixed declared name. -/
def funcHeader (name : String) : String :=
  "#[link_name = \"" ++ name ++ "\"]\npub fn __wasi_" ++ name

/-- Claim C2: with all declared parameters rendering successfully, a
function with zero results has no return type (the declaration closes with
`);`) unless it is literally named `proc_exit`, which renders as diverging
(`-> !`); a function with at least one result renders the first result's
by-value type as its single return type, and every result after the first
as an additional trailing `name: *mut Type` parameter, in declared result
order, after all declared parameters. -/
theorem C2_result_convention (f : InterfaceFunc) (ps : List String)
    (hps : f.params.mapM (fun p => (InterfaceFuncParam.render p).map (fun s => s ++ ",")) = some ps) :
    (f.results = [] → f.name ≠ "proc_exit" →
      InterfaceFunc.render f =
        some (funcHeader f.name ++ "(" ++ concatAll ps ++ ")" ++ ";")) ∧
    (f.results = [] → f.name = "proc_exit" →
      InterfaceFunc.render f =
        some (funcHeader f.name ++ "(" ++ concatAll ps ++ ")" ++ " -> !" ++ ";")) ∧
    (∀ (r : InterfaceFuncParam) (rest : List InterfaceFuncParam) (rs : List String)
        (i : Nat) (t : String),
      f.results = r :: rest →
      rest.mapM (fun q =>
          (DatatypeIdent.render q.type_).map (fun u => idRender q.name ++ ": *mut " ++ u ++ ",")) =
        some rs →
      r.position = InterfaceFuncParamPosition.Result i →
      passedBy r.type_ = DatatypePassedBy.Value →
      DatatypeIdent.render r.type_ = some t →
      InterfaceFunc.render f =
        some (funcHeader f.name ++ "(" ++ concatAll ps ++ concatAll rs ++ ")" ++ " -> " ++ t ++ ";")) := by
  refine ⟨?_, ?_, ?_⟩
  · intro hres hname
    rw [InterfaceFunc.render, hres, hps]
    show some ("#[link_name = \"" ++ f.name ++ "\"]\npub fn __wasi_" ++ f.name ++ "(" ++
        concatAll ps ++ concatAll ([] : List String) ++ ")" ++
        (if f.name = "proc_exit" then " -> !" else "") ++ ";") = _
    rw [if_neg hname]
    simp [funcHeader, concatAll, String.append_assoc]
  · intro hres hname
    rw [InterfaceFunc.render, hres, hps]
    show some ("#[link_name = \"" ++ f.name ++ "\"]\npub fn __wasi_" ++ f.name ++ "(" ++
        concatAll ps ++ concatAll ([] : List String) ++ ")" ++
        (if f.name = "proc_exit" then " -> !" else "") ++ ";") = _
    rw [hname]
    simp [funcHeader, concatAll, String.append_assoc]
  · intro r rest rs i t hres hrs hpos hval hrend
    have hr : InterfaceFuncParam.render r = some t := by
      rw [InterfaceFuncParam.render, hpos, hval, hrend]
      rfl
    rw [InterfaceFunc.render, hres, hps]
    show ((rest.mapM (fun q =>
        (DatatypeIdent.render q.type_).map (fun u => idRender q.name ++ ": *mut " ++ u ++ ","))).bind
      (fun rs => ((InterfaceFuncParam.render r).map (fun u => " -> " ++ u)).bind
        (fun ret => some ("#[link_name = \"" ++ f.name ++ "\"]\npub fn __wasi_" ++ f.name ++
          "(" ++ concatAll ps ++ concatAll rs ++ ")" ++ ret ++ ";")))) = _
    rw [hrs, hr]
    simp only [Option.some_bind, Option.map_some']
    simp [funcHeader, String.append_assoc]
    rfl

theorem C2_witness :
    InterfaceFunc.render ⟨"environ_sizes_get", [], []⟩ =
      some "#[link_name = \"environ_sizes_get\"]\npub fn __wasi_environ_sizes_get();" ∧
    InterfaceFunc.render ⟨"proc_exit", [], []⟩ =
      some "#[link_name = \"proc_exit\"]\npub fn __wasi_proc_exit() -> !;" ∧
    InterfaceFunc.render
        ⟨"fd_read", [],
          [⟨"error", DatatypeIdent.Builtin BuiltinType.U16, InterfaceFuncParamPosition.Result 0⟩,
           ⟨"nread", DatatypeIdent.Builtin BuiltinType.U32, InterfaceFuncParamPosition.Result 1⟩]⟩ =
      some "#[link_name = \"fd_read\"]\npub fn __wasi_fd_read(nread: *mut u32,) -> u16;" :=
  ⟨(C2_result_convention ⟨"environ_sizes_get", [], []⟩ [] rfl).1 rfl (by decide),
    (C2_result_convention ⟨"proc_exit", [], []⟩ [] rfl).2.1 rfl rfl,
    (C2_result_convention
        ⟨"fd_read", [],
          [⟨"error", DatatypeIdent.Builtin BuiltinType.U16, InterfaceFuncParamPosition.Result 0⟩,
           ⟨"nread", DatatypeIdent.Builtin BuiltinType.U32, InterfaceFuncParamPosition.Result 1⟩]⟩
        [] rfl).2.2
      ⟨"error", DatatypeIdent.Builtin BuiltinType.U16, InterfaceFuncParamPosition.Result 0⟩
      [⟨"nread", DatatypeIdent.Builtin BuiltinType.U32, InterfaceFuncParamPosition.Result 1⟩]
      ["nread: *mut u32,"] 0 "u16" rfl rfl rfl rfl rfl⟩

end WasiRaw

namespace WasiRaw

/-- No `Array` constructor occurs in the pointer nesting of a type
reference.  The spec guarantees this for every declared type: "Array only
ever appears as the resolved form of a pointer/length-pair parameter, never
as a standalone declared type". -/
def arrayFree : DatatypeIdent → Bool
  | DatatypeIdent.Builtin _ => true
  | DatatypeIdent.Array _ => false
  | DatatypeIdent.Pointer t => arrayFree t
  | DatatypeIdent.ConstPointer t => arrayFree t
  | DatatypeIdent.Ident _ => true

theorem arrayFree_render : ∀ ty : DatatypeIdent, arrayFree ty = true →
    ∃ s : String, DatatypeIdent.render ty = some s
  | DatatypeIdent.Builtin t, _ => ⟨builtinRender t, rfl⟩
  | DatatypeIdent.Array _, h => by simp [arrayFree] at h
  | DatatypeIdent.Pointer t, h => by
    obtain ⟨s, hs⟩ := arrayFree_render t h
    exact ⟨"*mut " ++ s, by rw [DatatypeIdent.render, hs]; rfl⟩
  | DatatypeIdent.ConstPointer t, h => by
    obtain ⟨s, hs⟩ := arrayFree_render t h
    exact ⟨"*const " ++ s, by rw [DatatypeIdent.render, hs]; rfl⟩
  | DatatypeIdent.Ident (Datatype.mk n _), _ => ⟨"__wasi_" ++ n ++ "_t", rfl⟩

/-- Claim C4: an alias whose target passes as a pointer+length-pair renders
to the empty string (nothing is appended to the output); every other alias
whose target contains no bare `Array` (the spec's data-model invariant)
renders to exactly one `pub type __wasi_NAME_t = BODY;` type-alias
declaration. -/
theorem C4_alias_suppression (a : AliasDatatype) :
    (passedBy a.to = DatatypePassedBy.PointerLengthPair →
      AliasDatatype.render a = some "") ∧
    (passedBy a.to ≠ DatatypePassedBy.PointerLengthPair →
      arrayFree a.to = true →
      ∃ body : String,
        AliasDatatype.render a =
          some ("pub type __wasi_" ++ a.name ++ "_t = " ++ body ++ ";")) := by
  constructor
  · intro h
    rw [AliasDatatype.render, if_pos h]
  · intro h harr
    rw [AliasDatatype.render, if_neg h]
    by_cases hn : a.name = "size"
    · exact ⟨"usize", by rw [if_pos hn]; rfl⟩
    · obtain ⟨s, hs⟩ := arrayFree_render a.to harr
      exact ⟨s, by rw [if_neg hn, hs]; rfl⟩

theorem C4_witness :
    AliasDatatype.render (AliasDatatype.mk "buf" (DatatypeIdent.Builtin BuiltinType.String)) =
      some "" ∧
    ∃ body : String,
      AliasDatatype.render (AliasDatatype.mk "fd" (DatatypeIdent.Builtin BuiltinType.U32)) =
        some ("pub type __wasi_" ++ "fd" ++ "_t = " ++ body ++ ";") :=
  ⟨(C4_alias_suppression _).1 rfl,
    (C4_alias_suppression (AliasDatatype.mk "fd" (DatatypeIdent.Builtin BuiltinType.U32))).2
      (by decide) rfl⟩

/-- Claim C8: a non-suppressed alias literally named "size" renders as an
alias to `usize`, regardless of its declared target's rendering; every other
non-suppressed alias renders as an alias to its target's rendered type
name. -/
theorem C8_size_special_case (a : AliasDatatype) :
    (a.name = "size" →
      passedBy a.to ≠ DatatypePassedBy.PointerLengthPair →
      AliasDatatype.render a = some "pub type __wasi_size_t = usize;") ∧
    (∀ t : String,
      a.name ≠ "size" →
      passedBy a.to ≠ DatatypePassedBy.PointerLengthPair →
      DatatypeIdent.render a.to = some t →
      AliasDatatype.render a =
        some ("pub type __wasi_" ++ a.name ++ "_t = " ++ t ++ ";")) := by
  constructor
  · intro hn h
    rw [AliasDatatype.render, if_neg h, if_pos hn, hn]
    rfl
  · intro t hn h ht
    rw [AliasDatatype.render, if_neg h, if_neg hn, ht]
    rfl

theorem C8_witness :
    AliasDatatype.render (AliasDatatype.mk "size" (DatatypeIdent.Builtin BuiltinType.U32)) =
      some "pub type __wasi_size_t = usize;" ∧
    AliasDatatype.render (AliasDatatype.mk "fd" (DatatypeIdent.Builtin BuiltinType.U32)) =
      some ("pub type __wasi_" ++ "fd" ++ "_t = " ++ "u32" ++ ";") :=
  ⟨(C8_size_special_case (AliasDatatype.mk "size" (DatatypeIdent.Builtin BuiltinType.U32))).1
      rfl (by decide),
    (C8_size_special_case (AliasDatatype.mk "fd" (DatatypeIdent.Builtin BuiltinType.U32))).2
      "u32" (by decide) (by decide) rfl⟩

end WasiRaw

namespace WasiRaw

/-- Claim C7 counterexample: a function literally named with the reserved
word `in` is not emitted with the `r#` escape.  Its declared identifier is
the prefixed raw name `__wasi_in` and its link name is the raw `in`, and the
escape marker `r#` occurs nowhere in the rendered declaration (splitting on
`r#` is not an infix of the emitted character sequence). -/
theorem C7_counterexample :
    InterfaceFunc.render (InterfaceFunc.mk "in" [] []) =
      some "#[link_name = \"in\"]\npub fn __wasi_in();" ∧
    ¬ List.IsInfix "r#".toList "#[link_name = \"in\"]\npub fn __wasi_in();".toList := by
  constructor
  · rfl
  · decide

/-- Claim C7 (amended): parameter and field names pass through `Id::render`,
which escapes exactly the two reserved words `in` and `type` to `r#in` and
`r#type` and leaves every other name unchanged, so by-value parameters and
struct fields emit the escaped identifier.  Function names are not escaped:
they are emitted raw, prefixed with `__wasi_` in the declaration and
unmodified inside the `link_name` directive.  Pointer+length-pair parameter
names are likewise emitted raw, with the `_ptr`/`_len` suffixes. -/
theorem C7_reserved_word_escaping :
    (idRender "in" = "r#in" ∧ idRender "type" = "r#type" ∧
      ∀ s : String, s ≠ "in" → s ≠ "type" → idRender s = s) ∧
    (∀ (p : InterfaceFuncParam) (i : Nat) (t : String),
      p.position = InterfaceFuncParamPosition.Param i →
      passedBy p.type_ = DatatypePassedBy.Value →
      DatatypeIdent.render p.type_ = some t →
      InterfaceFuncParam.render p = some (idRender p.name ++ ": " ++ t)) ∧
    (∀ (n : String) (m : StructMember) (t : String),
      DatatypeIdent.render m.type_ = some t →
      StructDatatype.render (StructDatatype.mk n [m]) =
        some ("#[repr(C)]\n#[derive(Copy, Clone)]\npub struct __wasi_" ++ n ++ "_t \x7b\n" ++
          "pub " ++ idRender m.name ++ ": " ++ t ++ ",\n" ++ "\x7d")) ∧
    (∀ (p : InterfaceFuncParam) (i : Nat),
      p.position = InterfaceFuncParamPosition.Param i →
      passedBy p.type_ = DatatypePassedBy.PointerLengthPair →
      InterfaceFuncParam.render p =
        (plpElemType (resolve p.type_)).map
          (fun e => p.name ++ "_ptr: *const " ++ e ++ ", " ++ p.name ++ "_len: usize")) ∧
    (∀ f : InterfaceFunc,
      f.params = [] → f.results = [] → f.name ≠ "proc_exit" →
      InterfaceFunc.render f = some (funcHeader f.name ++ "(" ++ ")" ++ ";")) := by
  refine ⟨⟨rfl, rfl, ?_⟩, ?_, ?_, ?_, ?_⟩
  · intro s h1 h2
    rw [idRender, if_neg h1, if_neg h2]
  · intro p i t hpos hval ht
    rw [InterfaceFuncParam.render, hpos, hval, ht]
    rfl
  · intro n m t ht
    rw [StructDatatype.render]
    show ((([m].mapM (fun q =>
        (DatatypeIdent.render q.type_).map
          (fun u => "pub " ++ idRender q.name ++ ": " ++ u ++ ",\n")))).map
      (fun fields =>
        "#[repr(C)]\n#[derive(Copy, Clone)]\npub struct __wasi_" ++ n ++ "_t \x7b\n" ++
          concatAll fields ++ "\x7d")) = _
    rw [List.mapM_cons, ht]
    simp [concatAll, String.append_assoc]
    rfl
  · intro p i hpos hplp
    rw [InterfaceFuncParam.render, hpos, hplp]
    rfl
  · intro f hp hr hn
    rw [InterfaceFunc.render, hp, hr]
    show some ("#[link_name = \"" ++ f.name ++ "\"]\npub fn __wasi_" ++ f.name ++ "(" ++
        concatAll ([] : List String) ++ concatAll ([] : List String) ++ ")" ++
        (if f.name = "proc_exit" then " -> !" else "") ++ ";") = _
    rw [if_neg hn]
    simp [funcHeader, concatAll, String.append_assoc]

theorem C7_witness :
    idRender "nofd" = "nofd" ∧
    InterfaceFuncParam.render
        (InterfaceFuncParam.mk "type" (DatatypeIdent.Builtin BuiltinType.U32)
          (InterfaceFuncParamPosition.Param 0)) =
      some "r#type: u32" ∧
    StructDatatype.render
        (StructDatatype.mk "fdstat" [StructMember.mk "in" (DatatypeIdent.Builtin BuiltinType.U8)]) =
      some "#[repr(C)]\n#[derive(Copy, Clone)]\npub struct __wasi_fdstat_t \x7b\npub r#in: u8,\n\x7d" ∧
    InterfaceFunc.render (InterfaceFunc.mk "type" [] []) =
      some "#[link_name = \"type\"]\npub fn __wasi_type();" :=
  ⟨C7_reserved_word_escaping.1.2.2 "nofd" (by decide) (by decide),
    C7_reserved_word_escaping.2.1
      (InterfaceFuncParam.mk "type" (DatatypeIdent.Builtin BuiltinType.U32)
        (InterfaceFuncParamPosition.Param 0)) 0 "u32" rfl rfl rfl,
    C7_reserved_word_escaping.2.2.1 "fdstat"
      (StructMember.mk "in" (DatatypeIdent.Builtin BuiltinType.U8)) "u8" rfl,
    C7_reserved_word_escaping.2.2.2.2 (InterfaceFunc.mk "type" [] []) rfl rfl (by decide)⟩

end WasiRaw

namespace WasiRaw

theorem flagConsts_eq (tyname : String) :
    ∀ (vs : List String) (i : Nat), i + vs.length ≤ 32 →
      flagConsts tyname i vs =
        some (concatAll ((vs.enumFrom i).map (fun p => flagConstLine tyname p.2 p.1)))
  | [], _, _ => rfl
  | v :: vs, i, h => by
    have h1 : i < 32 := by
      simp only [List.length_cons] at h
      omega
    have h2 : i + 1 + vs.length ≤ 32 := by
      simp only [List.length_cons] at h
      omega
    rw [flagConsts, if_pos h1, flagConsts_eq tyname vs (i + 1) h2]
    simp [List.enumFrom, concatAll]

/-- Claim C3 (amended): the emitted constant for a Flags variant at position
`i` has value `1 <<< i` (so `0x1, 0x2, 0x4, …`, rendered in hex inside
`flagConstLine`), proved here for every Flags datatype with at most 32
variants (the source computes `1 << i` at 32-bit width, so position 32 and
beyond overflows the shift itself).  Generation does not compare the variant
count against the representation's bit width: a count exceeding the width
still renders successfully, merely emitting constants outside the
representation's range. -/
theorem C3_flag_values (f : FlagsDatatype) (h : f.flags.length ≤ 32) :
    FlagsDatatype.render f =
      some ("pub type __wasi_" ++ f.name ++ "_t = " ++ intReprRender f.repr ++ ";\n" ++
        concatAll (f.flags.enum.map (fun p => flagConstLine f.name p.2 p.1))) := by
  rw [FlagsDatatype.render, flagConsts_eq f.name f.flags 0 (by omega)]
  rfl

set_option maxRecDepth 8000 in
theorem C3_witness :
    FlagsDatatype.render ⟨"fdflags", IntRepr.U16, ["append", "dsync"]⟩ =
      some ("pub type __wasi_fdflags_t = u16;\npub const __WASI_FDFLAGS_APPEND: __wasi_fdflags_t = 0x1;pub const __WASI_FDFLAGS_DSYNC: __wasi_fdflags_t = 0x2;") :=
  C3_flag_values ⟨"fdflags", IntRepr.U16, ["append", "dsync"]⟩ (by decide)

set_option maxRecDepth 8000 in
/-- Claim C3 counterexample: a Flags datatype whose variant count exceeds
the bit width of its representation does not fail generation.  With nine
variants at 8-bit representation, rendering succeeds and emits output, the
ninth constant being `0x100` — a value outside the `u8` range. -/
theorem C3_counterexample :
    FlagsDatatype.render ⟨"f", IntRepr.U8, ["a", "b", "c", "d", "e", "g", "h", "i", "j"]⟩ =
      some ("pub type __wasi_f_t = u8;\npub const __WASI_F_A: __wasi_f_t = 0x1;pub const __WASI_F_B: __wasi_f_t = 0x2;pub const __WASI_F_C: __wasi_f_t = 0x4;pub const __WASI_F_D: __wasi_f_t = 0x8;pub const __WASI_F_E: __wasi_f_t = 0x10;pub const __WASI_F_G: __wasi_f_t = 0x20;pub const __WASI_F_H: __wasi_f_t = 0x40;pub const __WASI_F_I: __wasi_f_t = 0x80;pub const __WASI_F_J: __wasi_f_t = 0x100;") := by
  rfl

end WasiRaw

namespace WasiRaw

theorem foldlM_render_append {α : Type} (g : α → Option String) :
    ∀ (l : List α) (acc : String),
      l.foldlM (fun a x => (g x).map (fun s => a ++ s ++ "\n")) acc =
        (l.mapM g).map (fun ss => acc ++ concatAll (ss.map (fun s => s ++ "\n")))
  | [], acc => by
    rw [List.foldlM_nil, List.mapM_nil]
    simp [concatAll]
  | x :: l, acc => by
    rw [List.foldlM_cons, List.mapM_cons]
    cases hg : g x with
    | none => rfl
    | some s =>
      show (l.foldlM (fun a x => (g x).map (fun s => a ++ s ++ "\n")) (acc ++ s ++ "\n")) = _
      rw [foldlM_render_append g l (acc ++ s ++ "\n")]
      cases hm : l.mapM g with
      | none => rfl
      | some ss =>
        simp [concatAll, String.append_assoc]

/-- Claim C9: generation is deterministic.  The accumulated output text is a
pure function of the document's declaration lists alone: any two documents
with the same datatype list and module list — in particular the same
document rendered twice — produce byte-identical output, and that output is
exactly the fixed header followed by each datatype's rendering plus newline
and then each module's rendering plus newline, in declaration order. -/
theorem C9_deterministic (doc doc2 : Document) (ds ms : List String)
    (hdoc : doc.datatypes = doc2.datatypes) (hmod : doc.modules = doc2.modules)
    (hds : doc.datatypes.mapM Datatype.render = some ds)
    (hms : doc.modules.mapM Module.render = some ms) :
    generateRaw doc = generateRaw doc2 ∧
    generateRaw doc =
      some (headerStr ++ concatAll (ds.map (fun s => s ++ "\n")) ++
        concatAll (ms.map (fun s => s ++ "\n"))) := by
  have key : ∀ d : Document,
      d.datatypes.mapM Datatype.render = some ds →
      d.modules.mapM Module.render = some ms →
      generateRaw d =
        some (headerStr ++ concatAll (ds.map (fun s => s ++ "\n")) ++
          concatAll (ms.map (fun s => s ++ "\n"))) := by
    intro d hd hm
    rw [generateRaw, foldlM_render_append Datatype.render d.datatypes headerStr, hd,
      Option.map_some', Option.some_bind,
      foldlM_render_append Module.render d.modules
        (headerStr ++ concatAll (ds.map (fun s => s ++ "\n"))), hm]
    rfl
  exact ⟨(key doc hds hms).trans
      (key doc2 (hdoc ▸ hds) (hmod ▸ hms)).symm,
    key doc hds hms⟩

set_option maxRecDepth 40000 in
theorem C9_witness :
    generateRaw
        ⟨[Datatype.mk "color" (DatatypeVariant.Enum ⟨"color", IntRepr.U8, ["red", "green", "blue"]⟩)],
          [⟨"demo",
            [⟨"get_color", [],
              [⟨"c",
                DatatypeIdent.Ident
                  (Datatype.mk "color"
                    (DatatypeVariant.Enum ⟨"color", IntRepr.U8, ["red", "green", "blue"]⟩)),
                InterfaceFuncParamPosition.Result 0⟩]⟩]⟩]⟩ =
      generateRaw
        ⟨[Datatype.mk "color" (DatatypeVariant.Enum ⟨"color", IntRepr.U8, ["red", "green", "blue"]⟩)],
          [⟨"demo",
            [⟨"get_color", [],
              [⟨"c",
                DatatypeIdent.Ident
                  (Datatype.mk "color"
                    (DatatypeVariant.Enum ⟨"color", IntRepr.U8, ["red", "green", "blue"]⟩)),
                InterfaceFuncParamPosition.Result 0⟩]⟩]⟩]⟩ ∧
    generateRaw
        ⟨[Datatype.mk "color" (DatatypeVariant.Enum ⟨"color", IntRepr.U8, ["red", "green", "blue"]⟩)],
          [⟨"demo",
            [⟨"get_color", [],
              [⟨"c",
                DatatypeIdent.Ident
                  (Datatype.mk "color"
                    (DatatypeVariant.Enum ⟨"color", IntRepr.U8, ["red", "green", "blue"]⟩)),
                InterfaceFuncParamPosition.Result 0⟩]⟩]⟩]⟩ =
      some ("// This file is automatically generated, DO NOT EDIT\n//\n// To regenerate this file run the `crates/generate-raw` command\n\n#![allow(non_camel_case_types)]\n\npub type __wasi_color_t = u8;\npub const __WASI_COLOR_RED: __wasi_color_t = 0;pub const __WASI_COLOR_GREEN: __wasi_color_t = 1;pub const __WASI_COLOR_BLUE: __wasi_color_t = 2;\n#[link(wasm_import_module =\"demo\")]\nextern \"C\" \x7b\n#[link_name = \"get_color\"]\npub fn __wasi_get_color() -> __wasi_color_t;\n\x7d\n") :=
  C9_deterministic _ _
    ["pub type __wasi_color_t = u8;\npub const __WASI_COLOR_RED: __wasi_color_t = 0;pub const __WASI_COLOR_GREEN: __wasi_color_t = 1;pub const __WASI_COLOR_BLUE: __wasi_color_t = 2;"]
    ["#[link(wasm_import_module =\"demo\")]\nextern \"C\" \x7b\n#[link_name = \"get_color\"]\npub fn __wasi_get_color() -> __wasi_color_t;\n\x7d"]
    rfl rfl rfl rfl

end WasiRaw
